import Mathlib

/-!
Shallow embedding of `src/librustc/middle/lang_items.rs` (language-item
collection) and the `#[lang="..."]` annotation values appearing in
`src/libstd/ops.rs`.

The data model follows the source directly:
* `DefId` embeds `ast::DefId` (crate number + node id);
* `LanguageItems` embeds the registry `items: [Option<ast::DefId>, ..51]`
  as a list of length 51;
* `item_name`, `require`, `to_builtin_kind` embed the methods of
  `impl LanguageItems`;
* `CollectorState` embeds the mutable state of `LanguageItemCollector`
  (the registry plus the diagnostics accumulated via `session.err`);
* `collect_item` embeds `LanguageItemCollector::collect_item`;
* `item_refs` embeds the name-to-index `HashMap` built in
  `LanguageItemCollector::new`;
* `extract` embeds the free function `extract` over attributes, each
  attribute represented by the result of its `name_str_pair()` call
  (`Option (String × String)`);
* `visit_item` embeds the body of
  `LanguageItemVisitor::visit_item` (minus the generic tree walk).
-/

/-- Embeds `ast::DefId`: a crate number plus a node id. Equality is
structural, as in the source. -/
structure DefId where
  crate : Nat
  node : Nat
deriving DecidableEq, Repr

/-- Embeds `pub struct LanguageItems { items: [Option<ast::DefId>, ..51] }`:
a fixed-size table of 51 optional definition ids. -/
@[ext]
structure LanguageItems where
  items : List (Option DefId)
  items_length : items.length = 51

/-- Embeds `LanguageItems::new`: all 51 slots empty. -/
def LanguageItems.new : LanguageItems :=
  ⟨List.replicate 51 none, by simp⟩

/-- Read of `self.items[k]` (all source reads are in range `0..50`). -/
def LanguageItems.get (li : LanguageItems) (k : Nat) : Option DefId :=
  (li.items[k]?).getD none

/-- Embeds `LanguageItems::item_name`: the catalog's canonical name per
index, with the `_ => "???"` fallback of the source. -/
def item_name (index : Nat) : String :=
  match index with
  | 0  => "freeze"
  | 1  => "send"
  | 2  => "sized"
  | 3  => "drop"
  | 4  => "add"
  | 5  => "add_assign"
  | 6  => "sub"
  | 7  => "sub_assign"
  | 8  => "mul"
  | 9  => "mul_assign"
  | 10 => "div"
  | 11 => "div_assign"
  | 12 => "rem"
  | 13 => "rem_assign"
  | 14 => "neg"
  | 15 => "not"
  | 16 => "bitxor"
  | 17 => "bitxor_assign"
  | 18 => "bitand"
  | 19 => "bitand_assign"
  | 20 => "bitor"
  | 21 => "bitor_assign"
  | 22 => "shl"
  | 23 => "shl_assign"
  | 24 => "shr"
  | 25 => "shr_assign"
  | 26 => "index"
  | 27 => "eq"
  | 28 => "ord"
  | 29 => "str_eq"
  | 30 => "uniq_str_eq"
  | 31 => "fail_"
  | 32 => "fail_bounds_check"
  | 33 => "exchange_malloc"
  | 34 => "closure_exchange_malloc"
  | 35 => "exchange_free"
  | 36 => "malloc"
  | 37 => "free"
  | 38 => "borrow_as_imm"
  | 39 => "borrow_as_mut"
  | 40 => "return_to_mut"
  | 41 => "check_not_borrowed"
  | 42 => "strdup_uniq"
  | 43 => "record_borrow"
  | 44 => "unrecord_borrow"
  | 45 => "start"
  | 46 => "ty_desc"
  | 47 => "ty_visitor"
  | 48 => "opaque"
  | 49 => "event_loop_factory"
  | 50 => "type_id"
  | _  => "???"

/-- Embeds `LanguageItems::require`: `Ok(id)` when the slot is filled,
otherwise the formatted "requires ... lang_item" error string. -/
def LanguageItems.require (li : LanguageItems) (it : Nat) : Except String DefId :=
  match li.get it with
  | some id => .ok id
  | none => .error ("requires `" ++ item_name it ++ "` lang_item")

/-- Embeds `middle::ty::BuiltinBound` (the three constructors used by
`to_builtin_kind`). -/
inductive BuiltinBound where
  | BoundFreeze
  | BoundSend
  | BoundSized
deriving DecidableEq, Repr

/-- Embeds `LanguageItems::freeze_trait`: `items[FreezeTraitLangItem]`,
index 0. -/
def LanguageItems.freeze_trait (li : LanguageItems) : Option DefId := li.get 0

/-- Embeds `LanguageItems::send_trait`: `items[SendTraitLangItem]`,
index 1. -/
def LanguageItems.send_trait (li : LanguageItems) : Option DefId := li.get 1

/-- Embeds `LanguageItems::sized_trait`: `items[SizedTraitLangItem]`,
index 2. -/
def LanguageItems.sized_trait (li : LanguageItems) : Option DefId := li.get 2

/-- Embeds `LanguageItems::drop_trait`: `items[DropTraitLangItem]`,
index 3. -/
def LanguageItems.drop_trait (li : LanguageItems) : Option DefId := li.get 3

/-- Embeds `LanguageItems::to_builtin_kind`: compare against the Freeze,
Send, Sized slots in that order. -/
def LanguageItems.to_builtin_kind (li : LanguageItems) (id : DefId) :
    Option BuiltinBound :=
  if some id = li.freeze_trait then some .BoundFreeze
  else if some id = li.send_trait then some .BoundSend
  else if some id = li.sized_trait then some .BoundSized
  else none

/-- Embeds `extract(attrs)`: scan the attributes in order, return the value
of the first whose `name_str_pair()` yields key `"lang"`. Each attribute is
represented by its `name_str_pair()` result. -/
def extract : List (Option (String × String)) → Option String
  | [] => none
  | some (key, value) :: rest =>
      if "lang" = key then some value else extract rest
  | none :: rest => extract rest

/-- The (name, index) insertions performed by `LanguageItemCollector::new`
on the `item_refs` HashMap, in source order. All keys are distinct, so an
association list is a faithful model of the map. -/
def item_refs_list : List (String × Nat) :=
  [("freeze", 0), ("send", 1), ("sized", 2),
   ("drop", 3),
   ("add", 4), ("add_assign", 5), ("sub", 6), ("sub_assign", 7),
   ("mul", 8), ("mul_assign", 9), ("div", 10), ("div_assign", 11),
   ("rem", 12), ("rem_assign", 13), ("neg", 14), ("not", 15),
   ("bitxor", 16), ("bitxor_assign", 17), ("bitand", 18),
   ("bitand_assign", 19), ("bitor", 20), ("bitor_assign", 21),
   ("shl", 22), ("shl_assign", 23), ("shr", 24), ("shr_assign", 25),
   ("index", 26),
   ("eq", 27), ("ord", 28),
   ("str_eq", 29), ("uniq_str_eq", 30), ("fail_", 31),
   ("fail_bounds_check", 32), ("exchange_malloc", 33),
   ("closure_exchange_malloc", 34), ("exchange_free", 35),
   ("malloc", 36), ("free", 37), ("borrow_as_imm", 38),
   ("borrow_as_mut", 39), ("return_to_mut", 40),
   ("check_not_borrowed", 41), ("strdup_uniq", 42),
   ("record_borrow", 43), ("unrecord_borrow", 44),
   ("start", 45),
   ("ty_desc", 46), ("ty_visitor", 47), ("opaque", 48),
   ("event_loop_factory", 49),
   ("type_id", 50)]

/-- Embeds the lookup `self.this.item_refs.find_equiv(&value)` on the map
built by `LanguageItemCollector::new`. -/
def item_refs (s : String) : Option Nat :=
  (item_refs_list.find? (fun p => p.1 = s)).map Prod.snd

/-- The mutable state of `LanguageItemCollector` observable in this file:
the registry plus the diagnostic messages accumulated by `session.err`. -/
@[ext]
structure CollectorState where
  items : LanguageItems
  errors : List String

/-- Embeds `LanguageItemCollector::collect_item`: report a duplicate when
the slot holds a different id, then unconditionally store the new id. -/
def collect_item (st : CollectorState) (item_index : Nat)
    (item_def_id : DefId) : CollectorState :=
  let errors :=
    match st.items.get item_index with
    | some original_def_id =>
        if original_def_id ≠ item_def_id then
          st.errors ++ ["duplicate entry for `" ++ item_name item_index ++ "`"]
        else st.errors
    | none => st.errors
  { items := ⟨st.items.items.set item_index (some item_def_id),
              by rw [List.length_set]; exact st.items.items_length⟩,
    errors := errors }

/-- Embeds `syntax::ast_util::local_def`: a `DefId` in the local crate
(crate number 0). -/
def local_def (node : Nat) : DefId := ⟨0, node⟩

/-- Embeds the body of `LanguageItemVisitor::visit_item` (the per-item
action; the generic subtree walk is traversal machinery outside this
component): extract the lang annotation, look the value up in `item_refs`,
and on a hit call `collect_item` with `local_def(item.id)`. -/
def visit_item (st : CollectorState)
    (attrs : List (Option (String × String))) (item_id : Nat) :
    CollectorState :=
  match extract attrs with
  | some value =>
      match item_refs value with
      | some item_index => collect_item st item_index (local_def item_id)
      | none => st
  | none => st

/-- The `#[lang="..."]` annotation values appearing in
`src/libstd/ops.rs`, in source order. -/
def ops_lang_values : List String :=
  ["drop", "add", "add_assign", "sub", "sub_assign", "mul", "mul_assign",
   "div", "div_assign", "rem", "rem_assign", "neg", "not",
   "bitand", "bitand_assign", "bitor", "bitor_assign",
   "bitxor", "bitxor_assign", "shl", "shl_assign", "shr", "shr_assign",
   "index"]

/-- A collector state whose registry is fresh and whose diagnostic list is
empty, as built by `LanguageItemCollector::new`. -/
def freshState : CollectorState :=
  { items := LanguageItems.new, errors := [] }

/-- A collector state whose slot 0 (the Freeze kind) already holds the id
`⟨0, 1⟩`, used as a concrete starting point for duplicate-insertion facts. -/
def dupSt : CollectorState :=
  { items := ⟨(List.replicate 51 (none : Option DefId)).set 0 (some ⟨0, 1⟩),
              by simp⟩,
    errors := [] }

/-- After `collect_item st k id` with `k` in range, slot `k` holds `id`
(the write on line 474 of the source is unconditional). -/
theorem collect_item_get_self (st : CollectorState) (k : Nat) (id : DefId)
    (hk : k < 51) : (collect_item st k id).items.get k = some id := by
  have hlen : k < st.items.items.length := by
    rw [st.items.items_length]; exact hk
  simp [collect_item, LanguageItems.get, List.getElem?_set, hlen]

/-- Claim C1, counterexample: starting from a registry whose slot 0 holds
id (0,1), inserting the different id (0,2) for kind 0 does emit exactly one
duplicate diagnostic, but the slot does NOT still hold the first-inserted
id, refuting the claim as stated. -/
theorem C1_counterexample :
    dupSt.items.get 0 = some ⟨0, 1⟩ ∧ (⟨0, 1⟩ : DefId) ≠ ⟨0, 2⟩ ∧
    (collect_item dupSt 0 ⟨0, 2⟩).errors.length = dupSt.errors.length + 1 ∧
    ¬ (collect_item dupSt 0 ⟨0, 2⟩).items.get 0 = some ⟨0, 1⟩ := by
  decide

/-- Claim C1, amended: for every registry state in which the slot for kind
k holds some id A, calling collect_item for kind k with a different id B
emits exactly one duplicate-entry diagnostic (naming the kind) and leaves
the slot for k holding the newly inserted id B — the original A is
overwritten. -/
theorem C1_duplicate_reports_once_then_overwrites (st : CollectorState)
    (k : Nat) (A B : DefId) (hk : k < 51) (hA : st.items.get k = some A)
    (hne : A ≠ B) :
    (collect_item st k B).errors =
      st.errors ++ ["duplicate entry for `" ++ item_name k ++ "`"] ∧
    (collect_item st k B).items.get k = some B := by
  refine ⟨?_, collect_item_get_self st k B hk⟩
  conv_lhs => rw [collect_item]
  rw [hA]
  simp [hne]

/-- Claim C1, witness: the amended statement evaluated at the concrete
duplicate-insertion state. -/
theorem C1_duplicate_reports_once_then_overwrites_witness :
    (collect_item dupSt 0 ⟨0, 2⟩).errors =
      dupSt.errors ++ ["duplicate entry for `" ++ item_name 0 ++ "`"] ∧
    (collect_item dupSt 0 ⟨0, 2⟩).items.get 0 = some ⟨0, 2⟩ :=
  C1_duplicate_reports_once_then_overwrites dupSt 0 ⟨0, 1⟩ ⟨0, 2⟩
    (by decide) (by decide) (by decide)

/-- Claim C2: extract returns the value of the first pair whose key is
"lang" and nothing when no pair has that key; on
[("lang","drop"), ("lang","eq")] it returns "drop" and never "eq". -/
theorem C2_extract_first_lang_wins :
    (∀ pairs : List (String × String),
        extract (pairs.map some) =
          (pairs.find? (fun p => p.1 = "lang")).map Prod.snd) ∧
    extract [some ("lang", "drop"), some ("lang", "eq")] = some "drop" ∧
    extract [some ("lang", "drop"), some ("lang", "eq")] ≠ some "eq" := by
  refine ⟨?_, by decide, by decide⟩
  intro pairs
  induction pairs with
  | nil => rfl
  | cons p rest ih =>
      obtain ⟨key, value⟩ := p
      by_cases h : key = "lang" <;> simp [extract, List.find?, h, ih, eq_comm]

/-- Claim C3: to_builtin_kind compares the id against the Freeze, Send and
Sized slots in that fixed priority order, returns the first capability
whose slot holds exactly that id, and returns nothing for any id not bound
to one of those three kinds (even if bound to another kind such as Drop). -/
theorem C3_to_builtin_kind_priority (li : LanguageItems) (id : DefId) :
    (li.to_builtin_kind id = some .BoundFreeze ↔ li.get 0 = some id) ∧
    (li.to_builtin_kind id = some .BoundSend ↔
      (li.get 1 = some id ∧ li.get 0 ≠ some id)) ∧
    (li.to_builtin_kind id = some .BoundSized ↔
      (li.get 2 = some id ∧ li.get 0 ≠ some id ∧ li.get 1 ≠ some id)) ∧
    (li.to_builtin_kind id = none ↔
      (li.get 0 ≠ some id ∧ li.get 1 ≠ some id ∧ li.get 2 ≠ some id)) := by
  unfold LanguageItems.to_builtin_kind LanguageItems.freeze_trait
    LanguageItems.send_trait LanguageItems.sized_trait
  split_ifs with h1 h2 h3 <;> simp_all [eq_comm]

/-- Claim C4: inserting the same (kind, id) pair twice in succession leaves
the collector in exactly the same state as inserting it once, and the
second insertion emits no diagnostic. -/
theorem C4_collect_item_idempotent (st : CollectorState) (k : Nat)
    (id : DefId) (hk : k < 51) :
    collect_item (collect_item st k id) k id = collect_item st k id ∧
    (collect_item (collect_item st k id) k id).errors
      = (collect_item st k id).errors := by
  have hget := collect_item_get_self st k id hk
  have h1 : (collect_item (collect_item st k id) k id).items.items
      = (collect_item st k id).items.items := by
    simp [collect_item, List.set_set]
  have h2 : (collect_item (collect_item st k id) k id).errors
      = (collect_item st k id).errors := by
    conv_lhs => rw [collect_item]
    rw [hget]
    simp
  exact ⟨CollectorState.ext (LanguageItems.ext h1) h2, h2⟩

/-- Claim C4, witness: double insertion evaluated on the fresh state at
kind 4 ("add") with id (0,7). -/
theorem C4_collect_item_idempotent_witness :
    collect_item (collect_item freshState 4 ⟨0, 7⟩) 4 ⟨0, 7⟩
      = collect_item freshState 4 ⟨0, 7⟩ ∧
    (collect_item (collect_item freshState 4 ⟨0, 7⟩) 4 ⟨0, 7⟩).errors
      = (collect_item freshState 4 ⟨0, 7⟩).errors :=
  C4_collect_item_idempotent freshState 4 ⟨0, 7⟩ (by decide)

/-- Claim C5: on the freshly constructed registry every in-range slot is
empty and require fails with the message naming the kind's canonical name;
in general require succeeds with the stored id exactly when the slot is
non-empty and fails with that message exactly when it is empty. -/
theorem C5_fresh_registry_require :
    (∀ k, k < 51 → LanguageItems.new.get k = none) ∧
    (∀ k, k < 51 → LanguageItems.new.require k =
        .error ("requires `" ++ item_name k ++ "` lang_item")) ∧
    (∀ (li : LanguageItems) (k : Nat) (id : DefId),
        li.require k = .ok id ↔ li.get k = some id) ∧
    (∀ (li : LanguageItems) (k : Nat),
        li.require k =
            .error ("requires `" ++ item_name k ++ "` lang_item") ↔
          li.get k = none) := by
  have h1 : ∀ k, k < 51 → LanguageItems.new.get k = none := by decide
  have h3 : ∀ (li : LanguageItems) (k : Nat) (id : DefId),
      li.require k = .ok id ↔ li.get k = some id := by
    intro li k id
    unfold LanguageItems.require
    cases h : li.get k <;> simp
  have h4 : ∀ (li : LanguageItems) (k : Nat),
      li.require k =
          .error ("requires `" ++ item_name k ++ "` lang_item") ↔
        li.get k = none := by
    intro li k
    unfold LanguageItems.require
    cases h : li.get k <;> simp
  exact ⟨h1, fun k hk => (h4 _ k).mpr (h1 k hk), h3, h4⟩

/-- Claim C5, witness: the fresh registry evaluated at kind 3 ("drop"). -/
theorem C5_fresh_registry_require_witness :
    LanguageItems.new.get 3 = none ∧
    LanguageItems.new.require 3 =
      .error ("requires `" ++ item_name 3 ++ "` lang_item") ∧
    (LanguageItems.new.require 3 = .ok ⟨0, 7⟩ ↔
      LanguageItems.new.get 3 = some ⟨0, 7⟩) :=
  ⟨C5_fresh_registry_require.1 3 (by decide),
   C5_fresh_registry_require.2.1 3 (by decide),
   C5_fresh_registry_require.2.2.1 LanguageItems.new 3 ⟨0, 7⟩⟩

/-- Claim C6: item_name is total; every in-range index yields a canonical
name made of lowercase letters and underscores (never the sentinel), with
index 3 yielding "drop" and index 27 yielding "eq", and every out-of-range
index yields the placeholder "???" rather than failing. -/
theorem C6_item_name_total :
    (∀ k, k < 51 → item_name k ≠ "???" ∧
        (item_name k).toList.all (fun c => c.isLower ∨ c = '_')) ∧
    item_name 3 = "drop" ∧ item_name 27 = "eq" ∧
    (∀ k, 51 ≤ k → item_name k = "???") := by
  refine ⟨by decide, by decide, by decide, ?_⟩
  intro k hk
  obtain ⟨m, rfl⟩ : ∃ m, k = m + 51 := ⟨k - 51, by omega⟩
  rfl

/-- Claim C6, witness: totality evaluated at in-range index 4 and
out-of-range index 60. -/
theorem C6_item_name_total_witness :
    (item_name 4 ≠ "???" ∧
      (item_name 4).toList.all (fun c => c.isLower ∨ c = '_')) ∧
    item_name 60 = "???" :=
  ⟨C6_item_name_total.1 4 (by decide),
   C6_item_name_total.2.2.2 60 (by decide)⟩

/-- Claim C7: the name-to-index map of LanguageItemCollector::new and the
catalog item_name agree as a round trip: looking up item_name i yields i,
every catalog name occurs exactly once among the map's keys, and distinct
in-range indices have distinct canonical names. -/
theorem C7_name_map_roundtrip :
    (∀ i, i < 51 → item_refs (item_name i) = some i) ∧
    (∀ i, i < 51 → (item_refs_list.map Prod.fst).count (item_name i) = 1) ∧
    (∀ i, i < 51 → ∀ j, j < 51 → item_name i = item_name j → i = j) := by
  refine ⟨by decide, by decide, by decide⟩

/-- Claim C7, witness: the round trip evaluated at index 5
("add_assign"). -/
theorem C7_name_map_roundtrip_witness :
    item_refs (item_name 5) = some 5 ∧
    (item_refs_list.map Prod.fst).count (item_name 5) = 1 :=
  ⟨C7_name_map_roundtrip.1 5 (by decide),
   C7_name_map_roundtrip.2.1 5 (by decide)⟩

/-- Claim C8: when the extracted "lang" value is present but is not a key
of the name-to-index map, the visitor leaves the collector state (registry
and diagnostics) completely unchanged. -/
theorem C8_unknown_lang_value_ignored (st : CollectorState)
    (attrs : List (Option (String × String))) (item_id : Nat) (v : String)
    (hv : extract attrs = some v) (hm : item_refs v = none) :
    visit_item st attrs item_id = st := by
  simp [visit_item, hv, hm]

/-- Claim C8, witness: a declaration annotated with the unknown value
"florp" leaves the fresh collector state unchanged. -/
theorem C8_unknown_lang_value_ignored_witness :
    visit_item freshState [some ("lang", "florp")] 9 = freshState :=
  C8_unknown_lang_value_ignored freshState [some ("lang", "florp")] 9
    "florp" (by decide) (by decide)

/-- Claim C9: after any single collect_item call with an in-range index,
the slot at that index holds the newly observed id (last observation wins,
even over a previously different id), and no occupied slot becomes empty. -/
theorem C9_last_observation_wins (st : CollectorState) (k : Nat)
    (id : DefId) (hk : k < 51) :
    (collect_item st k id).items.get k = some id ∧
    ∀ j, st.items.get j ≠ none → (collect_item st k id).items.get j ≠ none := by
  refine ⟨collect_item_get_self st k id hk, ?_⟩
  intro j hj
  by_cases hjk : j = k
  · subst hjk
    rw [collect_item_get_self st j id hk]
    simp
  · have hkj : k ≠ j := fun h => hjk h.symm
    have : (collect_item st k id).items.get j = st.items.get j := by
      simp [collect_item, LanguageItems.get, List.getElem?_set, hkj]
    rw [this]
    exact hj

/-- Claim C9, witness: inserting id (0,2) over the occupied slot 0 leaves
the slot holding (0,2), and the occupied slot stays non-empty. -/
theorem C9_last_observation_wins_witness :
    (collect_item dupSt 0 ⟨0, 2⟩).items.get 0 = some ⟨0, 2⟩ ∧
    (collect_item dupSt 0 ⟨0, 2⟩).items.get 0 ≠ none :=
  ⟨(C9_last_observation_wins dupSt 0 ⟨0, 2⟩ (by decide)).1,
   (C9_last_observation_wins dupSt 0 ⟨0, 2⟩ (by decide)).2 0 (by decide)⟩

/-- Claim C10: every value used in a lang annotation in libstd/ops.rs is a
key of the name-to-index map, and extract on that trait's annotation
returns the value on which the lookup succeeds. -/
theorem C10_ops_lang_values_known :
    ∀ v ∈ ops_lang_values,
      extract [some ("lang", v)] = some v ∧ (item_refs v).isSome := by
  decide

/-- Claim C10, witness: evaluated at the "drop" annotation of the Drop
trait. -/
theorem C10_ops_lang_values_known_witness :
    extract [some ("lang", "drop")] = some "drop" ∧
    (item_refs "drop").isSome :=
  C10_ops_lang_values_known "drop" (by decide)
